/-
Verification of the Lunex AMM pair contract
(`uniswap-v2/contracts/pair/lib.rs`, module `pair_contract`).

This file is a shallow embedding of the pair contract's mutating entry
points (`mint`, `burn`, `swap`, `sync`) and of their internal helpers
(`lock`/`unlock`, `update`, `sqrt`, `mint_internal`, `burn_internal`),
translated directly from the Rust source.

Modelling conventions:
* `u128` values are `Nat`; every `checked_*` operation of the source is
  modelled by an explicit bound check against `2 ^ 128`
  (`checkedMul`, `checkedAdd`, `checkedSub`, `checkedDiv`).
* Unchecked Rust arithmetic (`+=`, plain `-`) wraps modulo the word size,
  which is the semantics of a release build (`wrapAdd`, `wrapSub128`,
  `wrapSub64`).
* `AccountId` is `Nat`; the zero address is `0`.  The
  `ink::storage::Mapping` of LP balances is an association list with the
  mapping's insert-overwrites semantics (`getBal`, `insertBal`).
* The contract state is passed explicitly; each message returns the pair
  of its `Result` and the state the raw sequential code leaves behind
  (an `Err` return carries whatever mutations the Rust code had already
  performed, exactly as the function body executes them).
* The block timestamp (`self.env().block_timestamp()`), the contract's
  own account id (`self.env().account_id()`) and the recipient `to` are
  explicit parameters.  Events, and the storage fields that the four
  messages never read or write (`token_0`, `token_1`, `factory`,
  `k_last`, the fee-accumulation fields), are not modelled; the unused
  `PSP22` error wrapper constructor is omitted.
-/
import Mathlib

namespace Pair

/-- Word bound of `u128`. -/
def U128 : Nat := 2 ^ 128

/-- Word bound of `u64` (`Timestamp`). -/
def U64 : Nat := 2 ^ 64

/-- `constants::UQ112 = 2^112`, fixed-point scale of the price accumulator. -/
def UQ112 : Nat := 2 ^ 112

/-- `constants::MINIMUM_LIQUIDITY = 100`. -/
def MINIMUM_LIQUIDITY : Nat := 100

/-- `constants::FEE_DENOMINATOR = 1000`. -/
def FEE_DENOMINATOR : Nat := 1000

/-- `PairError` of the source, without the unused `PSP22` wrapper. -/
inductive PairError where
  | InsufficientLiquidity
  | InsufficientLiquidityBurned
  | InsufficientOutputAmount
  | InsufficientInputAmount
  | InvalidTokenAmounts
  | Unauthorized
  | KValueDecreased
  | Overflow
  | Locked
deriving DecidableEq

/-- The storage of `PairContract` that the four messages read or write. -/
structure PairState where
  reserve_0 : Nat
  reserve_1 : Nat
  blockTimestampLast : Nat
  totalSupply : Nat
  balances : List (Nat × Nat)
  unlocked : Bool
  price0CumulativeLast : Nat
  price1CumulativeLast : Nat
deriving DecidableEq

/-- Rust `u128::checked_mul`. -/
def checkedMul (a b : Nat) : Option Nat :=
  if a * b < U128 then some (a * b) else none

/-- Rust `u128::checked_add`. -/
def checkedAdd (a b : Nat) : Option Nat :=
  if a + b < U128 then some (a + b) else none

/-- Rust `u128::checked_sub`. -/
def checkedSub (a b : Nat) : Option Nat :=
  if b ≤ a then some (a - b) else none

/-- Rust `u128::checked_div` (none exactly on division by zero). -/
def checkedDiv (a b : Nat) : Option Nat :=
  if b = 0 then none else some (a / b)

/-- Unchecked `u128` addition of a release build: wraps modulo `2^128`. -/
def wrapAdd (a b : Nat) : Nat := (a + b) % U128

/-- Unchecked `u128` subtraction of a release build: wraps modulo `2^128`. -/
def wrapSub128 (a b : Nat) : Nat := (a % U128 + U128 - b % U128) % U128

/-- Unchecked `u64` subtraction of a release build: wraps modulo `2^64`. -/
def wrapSub64 (a b : Nat) : Nat := (a % U64 + U64 - b % U64) % U64

/-- `Mapping::get(k).unwrap_or(0)`. -/
def getBal : List (Nat × Nat) → Nat → Nat
  | [], _ => 0
  | (a, v) :: rest, k => if a = k then v else getBal rest k

/-- `Mapping::insert(k, v)`: overwrite the existing entry or append. -/
def insertBal (k v : Nat) : List (Nat × Nat) → List (Nat × Nat)
  | [] => [(k, v)]
  | (a, w) :: rest =>
      if a = k then (k, v) :: rest else (a, w) :: insertBal k v rest

/-- `reserve.checked_mul(UQ112).and_then(|p| p.checked_div(other))` of
`update` (lines 261-266). -/
def priceQuot (a b : Nat) : Option Nat :=
  (checkedMul a UQ112).bind fun p => checkedDiv p b

/-- `current.checked_add(price.checked_mul(time_elapsed)?)` of `update`
(lines 269-271 and 275-277). -/
def accum (cur p te : Nat) : Option Nat :=
  (checkedMul p te).bind fun x => checkedAdd cur x

/-- The unconditional tail of `update` (lines 281-283): commit the new
reserves and the current timestamp. -/
def commitReserves (s : PairState) (bt b0 b1 : Nat) :
    Except PairError Unit × PairState :=
  (Except.ok (), { s with reserve_0 := b0, reserve_1 := b1,
                          blockTimestampLast := bt })

/-- `update` (lines 255-291).  `bt` is `self.env().block_timestamp()`.
The price accumulation mutates `price_0_cumulative_last` before the
second `checked_add` can fail, exactly as the Rust statements execute. -/
def update (s : PairState) (bt b0 b1 : Nat) :
    Except PairError Unit × PairState :=
  if 0 < wrapSub64 bt s.blockTimestampLast ∧
      s.reserve_0 ≠ 0 ∧ s.reserve_1 ≠ 0 then
    match priceQuot s.reserve_1 s.reserve_0,
          priceQuot s.reserve_0 s.reserve_1 with
    | none, _ => (Except.error PairError.Overflow, s)
    | some _, none => (Except.error PairError.Overflow, s)
    | some p0, some p1 =>
      match accum s.price0CumulativeLast p0
              (wrapSub64 bt s.blockTimestampLast) with
      | none => (Except.error PairError.Overflow, s)
      | some np0 =>
        match accum s.price1CumulativeLast p1
                (wrapSub64 bt s.blockTimestampLast) with
        | none =>
            (Except.error PairError.Overflow,
             { s with price0CumulativeLast := np0 })
        | some np1 =>
            commitReserves
              { s with price0CumulativeLast := np0,
                       price1CumulativeLast := np1 } bt b0 b1
  else commitReserves s bt b0 b1

/-- The loop body of the Babylonian `sqrt` (lines 294-308), with an
explicit fuel argument.  The loop variable `z` strictly decreases on
every iteration, so any fuel of at least `z + 1` makes the function
agree with the Rust `while` loop. -/
def sqrtAux : Nat → Nat → Nat → Nat → Nat
  | 0, _, z, _ => z
  | fuel + 1, y, z, x =>
      if x < z then sqrtAux fuel y x ((y / x + x) / 2) else z

/-- `sqrt` (lines 294-308), Babylonian method. -/
def sqrt (y : Nat) : Nat :=
  if 3 < y then sqrtAux (y + 1) y y (y / 2 + 1)
  else if y ≠ 0 then 1 else 0

/-- The liquidity computation of `mint_internal` (lines 362-387).  The
source fixes `balance_0 = balance_1 = 1000` ("Placeholder") and derives
the deposited amounts by the unchecked subtractions
`balance_i - reserve_i`. -/
def mintLiquidity (s : PairState) : Except PairError Nat :=
  if s.totalSupply = 0 then
    match checkedMul (wrapSub128 1000 s.reserve_0)
            (wrapSub128 1000 s.reserve_1) with
    | none => Except.error PairError.Overflow
    | some product =>
      match checkedSub (sqrt product) MINIMUM_LIQUIDITY with
      | none => Except.error PairError.InsufficientLiquidity
      | some l => Except.ok l
  else
    match (checkedMul (wrapSub128 1000 s.reserve_0) s.totalSupply).bind
            (fun x => checkedDiv x s.reserve_0) with
    | none => Except.error PairError.Overflow
    | some l0 =>
      match (checkedMul (wrapSub128 1000 s.reserve_1) s.totalSupply).bind
              (fun x => checkedDiv x s.reserve_1) with
      | none => Except.error PairError.Overflow
      | some l1 => Except.ok (if l0 < l1 then l0 else l1)

/-- The state mutations of `mint_internal` before `update`
(lines 394-402): the genesis credit of `MINIMUM_LIQUIDITY` to the zero
address and the credit of `liquidity` to `to`, both with the source's
unchecked `+=`. -/
def mintApply (s : PairState) (toAcct liquidity : Nat) : PairState :=
  let s1 := if s.totalSupply = 0 then
      { s with totalSupply := wrapAdd s.totalSupply MINIMUM_LIQUIDITY,
               balances := insertBal 0 MINIMUM_LIQUIDITY s.balances }
    else s
  { s1 with totalSupply := wrapAdd s1.totalSupply liquidity,
            balances := insertBal toAcct
              (wrapAdd (getBal s1.balances toAcct) liquidity) s1.balances }

/-- `mint_internal` (lines 362-412). -/
def mintInternal (s : PairState) (bt toAcct : Nat) :
    Except PairError Nat × PairState :=
  match mintLiquidity s with
  | Except.error e => (Except.error e, s)
  | Except.ok liquidity =>
    if liquidity = 0 then (Except.error PairError.InsufficientLiquidity, s)
    else
      match update (mintApply s toAcct liquidity) bt 1000 1000 with
      | (Except.error e, s2) => (Except.error e, s2)
      | (Except.ok _, s2) => (Except.ok liquidity, s2)

/-- `mint` (lines 352-359): `lock()?`, `mint_internal`, unconditional
`unlock()`. -/
def mint (s : PairState) (bt toAcct : Nat) :
    Except PairError Nat × PairState :=
  if s.unlocked then
    match mintInternal { s with unlocked := false } bt toAcct with
    | (r, s1) => (r, { s1 with unlocked := true })
  else (Except.error PairError.Locked, s)

/-- `burn_internal` (lines 426-470).  `ca` is the contract's own account
id (`self.env().account_id()`); the source fixes the placeholder token
balances `balance_0 = balance_1 = 1000`. -/
def burnInternal (s : PairState) (bt ca : Nat) :
    Except PairError (Nat × Nat) × PairState :=
  if getBal s.balances ca = 0 ∨ s.totalSupply = 0 then
    (Except.error PairError.InsufficientLiquidityBurned, s)
  else
    match (checkedMul (getBal s.balances ca) 1000).bind
            (fun x => checkedDiv x s.totalSupply) with
    | none => (Except.error PairError.Overflow, s)
    | some amount_0 =>
      match (checkedMul (getBal s.balances ca) 1000).bind
              (fun x => checkedDiv x s.totalSupply) with
      | none => (Except.error PairError.Overflow, s)
      | some amount_1 =>
        if amount_0 = 0 ∨ amount_1 = 0 then
          (Except.error PairError.InsufficientLiquidityBurned, s)
        else if getBal s.balances ca < getBal s.balances ca then
          (Except.error PairError.InsufficientLiquidityBurned, s)
        else
          match checkedSub s.totalSupply (getBal s.balances ca) with
          | none => (Except.error PairError.InsufficientLiquidityBurned, s)
          | some newSupply =>
            match update
                { s with totalSupply := newSupply,
                         balances := insertBal ca
                           (wrapSub128 (getBal s.balances ca)
                             (getBal s.balances ca)) s.balances }
                bt (wrapSub128 1000 amount_0) (wrapSub128 1000 amount_1) with
            | (Except.error e, s2) => (Except.error e, s2)
            | (Except.ok _, s2) => (Except.ok (amount_0, amount_1), s2)

/-- `burn` (lines 416-423): `lock()?`, `burn_internal`, unconditional
`unlock()`. -/
def burn (s : PairState) (bt ca : Nat) :
    Except PairError (Nat × Nat) × PairState :=
  if s.unlocked then
    match burnInternal { s with unlocked := false } bt ca with
    | (r, s1) => (r, { s1 with unlocked := true })
  else (Except.error PairError.Locked, s)

/-- `swap` (lines 474-523).  The requested outputs are subtracted from
the reserves; the supplied input amounts do not appear anywhere in the
source body (the emitted event hard-codes `amount_0_in = amount_1_in =
0`).  The four `checked_mul ... .ok_or(Overflow)?` lines and the
`update(...)?` line propagate their error with `?`, without the
`self.unlock()` call that every other error path performs. -/
def swap (s : PairState) (bt a0out a1out : Nat) :
    Except PairError Unit × PairState :=
  if s.unlocked then
    if a0out = 0 ∧ a1out = 0 then
      (Except.error PairError.InsufficientOutputAmount,
       { s with unlocked := true })
    else if s.reserve_0 ≤ a0out ∨ s.reserve_1 ≤ a1out then
      (Except.error PairError.InsufficientLiquidity,
       { s with unlocked := true })
    else
      match checkedMul (s.reserve_0 - a0out) FEE_DENOMINATOR with
      | none => (Except.error PairError.Overflow, { s with unlocked := false })
      | some b0adj =>
        match checkedMul (s.reserve_1 - a1out) FEE_DENOMINATOR with
        | none =>
            (Except.error PairError.Overflow, { s with unlocked := false })
        | some b1adj =>
          match checkedMul b0adj b1adj with
          | none =>
              (Except.error PairError.Overflow, { s with unlocked := false })
          | some kNew =>
            match checkedMul s.reserve_0 FEE_DENOMINATOR with
            | none =>
                (Except.error PairError.Overflow,
                 { s with unlocked := false })
            | some r0adj =>
              match checkedMul s.reserve_1 FEE_DENOMINATOR with
              | none =>
                  (Except.error PairError.Overflow,
                   { s with unlocked := false })
              | some r1adj =>
                match checkedMul r0adj r1adj with
                | none =>
                    (Except.error PairError.Overflow,
                     { s with unlocked := false })
                | some kOld =>
                  if kNew < kOld then
                    (Except.error PairError.KValueDecreased,
                     { s with unlocked := true })
                  else
                    match update { s with unlocked := false } bt
                        (s.reserve_0 - a0out) (s.reserve_1 - a1out) with
                    | (Except.error e, s1) => (Except.error e, s1)
                    | (Except.ok _, s1) =>
                        (Except.ok (), { s1 with unlocked := true })
  else (Except.error PairError.Locked, s)

/-- `sync` (lines 527-532): placeholder balances `1000, 1000`, no lock. -/
def sync (s : PairState) (bt : Nat) : Except PairError Unit × PairState :=
  update s bt 1000 1000

/-- Freshly constructed pool: zero reserves, zero supply, unlocked. -/
def sGenesis : PairState :=
  { reserve_0 := 0, reserve_1 := 0, blockTimestampLast := 0,
    totalSupply := 0, balances := [], unlocked := true,
    price0CumulativeLast := 0, price1CumulativeLast := 0 }

/-- Empty pool whose recorded reserves exceed the placeholder balance of
1000, so `mint`'s unchecked `balance_0 - reserve_0` underflows. -/
def sWrap : PairState :=
  { reserve_0 := 1001, reserve_1 := 999, blockTimestampLast := 0,
    totalSupply := 0, balances := [], unlocked := true,
    price0CumulativeLast := 0, price1CumulativeLast := 0 }

/-- Funded pool with a lopsided price (`reserve_0 = 1`) so that the
cumulative-price addition overflows after 100 time units. -/
def sPartial : PairState :=
  { reserve_0 := 1, reserve_1 := 999, blockTimestampLast := 0,
    totalSupply := 999, balances := [], unlocked := true,
    price0CumulativeLast := 0, price1CumulativeLast := 0 }

/-- Pool with a huge `reserve_0`, making `swap`'s fee-adjustment
multiplication `balance_0 * FEE_DENOMINATOR` overflow `u128`. -/
def sBig : PairState :=
  { reserve_0 := 2 ^ 120, reserve_1 := 2, blockTimestampLast := 0,
    totalSupply := 0, balances := [], unlocked := true,
    price0CumulativeLast := 0, price1CumulativeLast := 0 }

/-- The spec's K-rejection scenario state: reserves 10000 and 20000. -/
def sK : PairState :=
  { reserve_0 := 10000, reserve_1 := 20000, blockTimestampLast := 0,
    totalSupply := 0, balances := [], unlocked := true,
    price0CumulativeLast := 0, price1CumulativeLast := 0 }

/-- Pool with reserves 500/500, supply 1000, and 100 LP shares held by
the contract account `7` for burning. -/
def sBurn : PairState :=
  { reserve_0 := 500, reserve_1 := 500, blockTimestampLast := 0,
    totalSupply := 1000, balances := [(7, 100)], unlocked := true,
    price0CumulativeLast := 0, price1CumulativeLast := 0 }

/-- Pool whose reentrancy guard is currently held (`unlocked = false`). -/
def sLock : PairState :=
  { reserve_0 := 5, reserve_1 := 7, blockTimestampLast := 0,
    totalSupply := 0, balances := [], unlocked := false,
    price0CumulativeLast := 0, price1CumulativeLast := 0 }

/-- Balanced pool used to witness the `KValueDecreased` rejection. -/
def sW3 : PairState :=
  { reserve_0 := 1000, reserve_1 := 1000, blockTimestampLast := 0,
    totalSupply := 0, balances := [], unlocked := true,
    price0CumulativeLast := 0, price1CumulativeLast := 0 }

/-- Small funded pool used to witness the price-accumulator update. -/
def sW10 : PairState :=
  { reserve_0 := 1, reserve_1 := 1, blockTimestampLast := 0,
    totalSupply := 5, balances := [], unlocked := true,
    price0CumulativeLast := 0, price1CumulativeLast := 0 }

theorem checkedMul_some {a b v : Nat} (h : checkedMul a b = some v) :
    v = a * b := by
  unfold checkedMul at h
  split at h
  · exact (Option.some_inj.mp h).symm
  · exact absurd h (by simp)

theorem checkedMul_eq_some {a b : Nat} (h : a * b < U128) :
    checkedMul a b = some (a * b) := by
  unfold checkedMul
  exact if_pos h

theorem checkedMul_none {a b : Nat} (h : checkedMul a b = none) :
    ¬ a * b < U128 := by
  unfold checkedMul at h
  split at h
  · exact absurd h (by simp)
  · assumption

theorem priceQuot_some {a b p : Nat} (h : priceQuot a b = some p) :
    p = a * UQ112 / b := by
  unfold priceQuot checkedMul checkedDiv at h
  split at h
  · simp only [Option.some_bind] at h
    split at h
    · exact absurd h (by simp)
    · exact (Option.some_inj.mp h).symm
  · exact absurd h (by simp)

theorem accum_some {cur p te v : Nat} (h : accum cur p te = some v) :
    v = cur + p * te := by
  unfold accum checkedMul checkedAdd at h
  split at h
  · simp only [Option.some_bind] at h
    split at h
    · exact (Option.some_inj.mp h).symm
    · exact absurd h (by simp)
  · exact absurd h (by simp)

theorem accum_le {cur p te v : Nat} (h : accum cur p te = some v) :
    cur ≤ v := by
  rw [accum_some h]
  exact Nat.le_add_right cur (p * te)

theorem wrapSubGen_eq {x y n : Nat} (hyx : y ≤ x) (hx : x < n) :
    (x % n + n - y % n) % n = x - y := by
  have hy : y < n := lt_of_le_of_lt hyx hx
  rw [Nat.mod_eq_of_lt hx, Nat.mod_eq_of_lt hy]
  have h1 : x + n - y = (x - y) + n := by omega
  rw [h1, Nat.add_mod_right, Nat.mod_eq_of_lt (by omega)]

theorem wrapSub64_eq {a b : Nat} (hba : b ≤ a) (ha : a < U64) :
    wrapSub64 a b = a - b := by
  unfold wrapSub64
  exact wrapSubGen_eq hba ha

theorem subProd_lt {r0 r1 a0 a1 : Nat} (h0 : a0 < r0) (h1 : a1 < r1)
    (hp : 0 < a0 ∨ 0 < a1) :
    (r0 - a0) * (r1 - a1) < r0 * r1 := by
  rcases hp with hp | hp
  · have h2 : (r0 - a0) * (r1 - a1) < r0 * (r1 - a1) :=
      mul_lt_mul_of_pos_right (by omega) (by omega)
    have h3 : r0 * (r1 - a1) ≤ r0 * r1 :=
      Nat.mul_le_mul (le_refl r0) (by omega)
    exact lt_of_lt_of_le h2 h3
  · have h2 : (r0 - a0) * (r1 - a1) < (r0 - a0) * r1 :=
      mul_lt_mul_of_pos_left (by omega) (by omega)
    have h3 : (r0 - a0) * r1 ≤ r0 * r1 :=
      Nat.mul_le_mul (by omega) (le_refl r1)
    exact lt_of_lt_of_le h2 h3

theorem kAdj_lt {r0 r1 a0 a1 : Nat} (h0 : a0 < r0) (h1 : a1 < r1)
    (hp : 0 < a0 ∨ 0 < a1) :
    ((r0 - a0) * FEE_DENOMINATOR) * ((r1 - a1) * FEE_DENOMINATOR)
      < (r0 * FEE_DENOMINATOR) * (r1 * FEE_DENOMINATOR) := by
  have h := subProd_lt h0 h1 hp
  unfold FEE_DENOMINATOR
  calc (r0 - a0) * 1000 * ((r1 - a1) * 1000)
      = (r0 - a0) * (r1 - a1) * 1000000 := by ring
    _ < r0 * r1 * 1000000 := mul_lt_mul_of_pos_right h (by norm_num)
    _ = r0 * 1000 * (r1 * 1000) := by ring

/-- Every call to `swap` returns an error: a request with both outputs
zero is rejected up front, and a positive-output request either trips
the lock, the reserve checks, or an overflow check, or reaches the
K-comparison where the fee-adjusted product of the new balances
(inputs ignored) is strictly below the adjusted reserve product. -/
theorem swap_isErr (s : PairState) (bt a0out a1out : Nat) :
    ∃ e, (swap s bt a0out a1out).1 = Except.error e := by
  unfold swap
  split
  · split
    · exact ⟨_, rfl⟩
    · split
      · exact ⟨_, rfl⟩
      · rename_i hzero hres
        split
        · exact ⟨_, rfl⟩
        · rename_i b0adj hb0
          split
          · exact ⟨_, rfl⟩
          · rename_i b1adj hb1
            split
            · exact ⟨_, rfl⟩
            · rename_i kNew hkn
              split
              · exact ⟨_, rfl⟩
              · rename_i r0adj hr0
                split
                · exact ⟨_, rfl⟩
                · rename_i r1adj hr1
                  split
                  · exact ⟨_, rfl⟩
                  · rename_i kOld hko
                    split
                    · exact ⟨_, rfl⟩
                    · rename_i hklt
                      exfalso
                      apply hklt
                      rw [checkedMul_some hkn, checkedMul_some hko,
                          checkedMul_some hb0, checkedMul_some hb1,
                          checkedMul_some hr0, checkedMul_some hr1]
                      exact kAdj_lt (by omega) (by omega) (by omega)
  · exact ⟨_, rfl⟩

/-- Claim C1: for every `swap` call that returns success, the product
`reserve_0 * reserve_1` after the call is at least its value before the
call.  (In this source no swap ever succeeds — see C3 — so the success
case is vacuous; the K-comparison of lines 497-508 would in any case
refuse to commit balances whose product is below the reserve product.) -/
theorem claim_C1 (s : PairState) (bt a0out a1out : Nat) :
    match swap s bt a0out a1out with
    | (Except.ok _, s2) =>
        s.reserve_0 * s.reserve_1 ≤ s2.reserve_0 * s2.reserve_1
    | (Except.error _, _) => True := by
  obtain ⟨e, he⟩ := swap_isErr s bt a0out a1out
  revert he
  cases hsw : swap s bt a0out a1out with
  | mk r t =>
    intro he
    cases r with
    | ok v => exact absurd he (by simp)
    | error e2 => trivial

/-- Claim C3 (amended): for every pool state and every request with
`amount_0_out > 0` or `amount_1_out > 0`, `swap` returns an error; a
request that passes the lock and the output-versus-reserve checks fails
with `KValueDecreased` whenever the four fee-adjustment multiplications
fit in `u128` (and with `Overflow` otherwise); hence no swap with a
positive output ever commits. -/
theorem claim_C3_amended (s : PairState) (bt a0out a1out : Nat)
    (hp : 0 < a0out ∨ 0 < a1out) :
    (∃ e, (swap s bt a0out a1out).1 = Except.error e) ∧
    (s.unlocked = true → a0out < s.reserve_0 → a1out < s.reserve_1 →
      (s.reserve_0 - a0out) * FEE_DENOMINATOR < U128 →
      (s.reserve_1 - a1out) * FEE_DENOMINATOR < U128 →
      ((s.reserve_0 - a0out) * FEE_DENOMINATOR) *
        ((s.reserve_1 - a1out) * FEE_DENOMINATOR) < U128 →
      s.reserve_0 * FEE_DENOMINATOR < U128 →
      s.reserve_1 * FEE_DENOMINATOR < U128 →
      (s.reserve_0 * FEE_DENOMINATOR) * (s.reserve_1 * FEE_DENOMINATOR)
        < U128 →
      (swap s bt a0out a1out).1 = Except.error PairError.KValueDecreased) := by
  refine ⟨swap_isErr s bt a0out a1out, ?_⟩
  intro hu h0 h1 f1 f2 f3 f4 f5 f6
  have hzero : ¬(a0out = 0 ∧ a1out = 0) := by omega
  have hres : ¬(s.reserve_0 ≤ a0out ∨ s.reserve_1 ≤ a1out) := by omega
  unfold swap
  rw [if_pos hu, if_neg hzero, if_neg hres]
  simp only [checkedMul_eq_some f1, checkedMul_eq_some f2,
    checkedMul_eq_some f3, checkedMul_eq_some f4, checkedMul_eq_some f5,
    checkedMul_eq_some f6]
  rw [if_pos (kAdj_lt h0 h1 hp)]

/-- Claim C3, counterexample to the claim as stated: on `sBig` the
request `amount_0_out = 1, amount_1_out = 0` passes the lock and the
output-versus-reserve checks, yet fails with `Overflow` (from
`balance_0 * FEE_DENOMINATOR`), not with `KValueDecreased`. -/
theorem claim_C3_counterexample :
    (0 : Nat) < 1 ∧ sBig.unlocked = true ∧
    1 < sBig.reserve_0 ∧ 0 < sBig.reserve_1 ∧
    (swap sBig 0 1 0).1 = Except.error PairError.Overflow ∧
    PairError.Overflow ≠ PairError.KValueDecreased := by
  refine ⟨by decide, rfl, by decide, by decide, rfl, by decide⟩

/-- Claim C3, witness: on the balanced pool `sW3` the positive-output
request `amount_0_out = 1` is rejected exactly with `KValueDecreased`. -/
theorem claim_C3_witness :
    (swap sW3 0 1 0).1 = Except.error PairError.KValueDecreased :=
  (claim_C3_amended sW3 0 1 0 (Or.inl (by decide))).2 rfl (by decide)
    (by decide) (by decide) (by decide) (by decide) (by decide) (by decide)
    (by decide)

/-- Claim C6 (amended): `mint`, `burn`, and `swap` acquire the
reentrancy guard at entry: any of them issued while the guard is held
is rejected with `Locked` and leaves the pool state, including the
state of the in-progress operation, exactly unchanged.  (`sync` does
not acquire the guard — see the counterexample.) -/
theorem claim_C6_amended (s : PairState) (bt toAcct ca a0out a1out : Nat)
    (h : s.unlocked = false) :
    mint s bt toAcct = (Except.error PairError.Locked, s) ∧
    burn s bt ca = (Except.error PairError.Locked, s) ∧
    swap s bt a0out a1out = (Except.error PairError.Locked, s) := by
  unfold mint burn swap
  rw [h]
  simp

/-- Claim C6, counterexample to the claim as stated: `sync` issued
while the guard is held is not rejected with `Locked`; it succeeds and
overwrites the reserves with the placeholder balances. -/
theorem claim_C6_counterexample :
    sLock.unlocked = false ∧
    (sync sLock 0).1 = Except.ok () ∧
    (sync sLock 0).2.reserve_0 = 1000 ∧ sLock.reserve_0 = 5 := by
  exact ⟨rfl, rfl, rfl, rfl⟩

/-- Claim C6, witness: on the locked pool `sLock` all three guarded
operations are rejected with `Locked` and return the state unchanged. -/
theorem claim_C6_witness :
    mint sLock 0 3 = (Except.error PairError.Locked, sLock) ∧
    burn sLock 0 7 = (Except.error PairError.Locked, sLock) ∧
    swap sLock 0 1 0 = (Except.error PairError.Locked, sLock) :=
  claim_C6_amended sLock 0 3 7 1 0 rfl

/-- Claim C10: under a monotone `u64` clock (`blockTimestampLast ≤ bt <
2^64`), `update` keeps both cumulative prices monotone non-decreasing;
and when it succeeds it sets `blockTimestampLast := bt`, adds
`elapsed * (reserve_1 * 2^112 / reserve_0)` to `cumulative_price_0` and
the symmetric term to `cumulative_price_1` exactly when `bt` exceeds
the last update time and both reserves are non-zero, and leaves both
accumulators unchanged otherwise.  Overflowing additions make `update`
return `Overflow` instead of wrapping. -/
theorem claim_C10 (s : PairState) (bt b0 b1 : Nat)
    (hbt : s.blockTimestampLast ≤ bt) (hword : bt < U64) :
    s.price0CumulativeLast ≤ (update s bt b0 b1).2.price0CumulativeLast ∧
    s.price1CumulativeLast ≤ (update s bt b0 b1).2.price1CumulativeLast ∧
    ((update s bt b0 b1).1 = Except.ok () →
      (update s bt b0 b1).2.blockTimestampLast = bt ∧
      ((s.blockTimestampLast < bt ∧ s.reserve_0 ≠ 0 ∧ s.reserve_1 ≠ 0) →
        (update s bt b0 b1).2.price0CumulativeLast =
          s.price0CumulativeLast + (bt - s.blockTimestampLast) *
            (s.reserve_1 * UQ112 / s.reserve_0) ∧
        (update s bt b0 b1).2.price1CumulativeLast =
          s.price1CumulativeLast + (bt - s.blockTimestampLast) *
            (s.reserve_0 * UQ112 / s.reserve_1)) ∧
      (¬(s.blockTimestampLast < bt ∧ s.reserve_0 ≠ 0 ∧ s.reserve_1 ≠ 0) →
        (update s bt b0 b1).2.price0CumulativeLast =
          s.price0CumulativeLast ∧
        (update s bt b0 b1).2.price1CumulativeLast =
          s.price1CumulativeLast)) := by
  have hws : wrapSub64 bt s.blockTimestampLast = bt - s.blockTimestampLast :=
    wrapSub64_eq hbt hword
  unfold update
  rw [hws]
  split
  · rename_i hc
    split
    · refine ⟨le_refl _, le_refl _, fun hok => absurd hok (by simp)⟩
    · refine ⟨le_refl _, le_refl _, fun hok => absurd hok (by simp)⟩
    · rename_i p0v p1v hpq0 hpq1
      split
      · refine ⟨le_refl _, le_refl _, fun hok => absurd hok (by simp)⟩
      · rename_i np0 hacc0
        split
        · exact ⟨accum_le hacc0, le_refl _,
            fun hok => absurd hok (by simp)⟩
        · rename_i np1 hacc1
          unfold commitReserves
          refine ⟨accum_le hacc0, accum_le hacc1, fun _ => ⟨rfl, ?_, ?_⟩⟩
          · intro _
            constructor
            · rw [accum_some hacc0, priceQuot_some hpq0, Nat.mul_comm]
            · rw [accum_some hacc1, priceQuot_some hpq1, Nat.mul_comm]
          · intro hneg
            exact absurd ⟨by omega, hc.2.1, hc.2.2⟩ hneg
  · rename_i hc
    unfold commitReserves
    refine ⟨le_refl _, le_refl _, fun _ => ⟨rfl, ?_, fun _ => ⟨rfl, rfl⟩⟩⟩
    intro hpos
    exact absurd ⟨by omega, hpos.2.1, hpos.2.2⟩ hc

/-- Claim C10, witness: on `sW10` with current time 10, `update`
succeeds and `cumulative_price_0` grows by `10 * (1 * 2^112 / 1)`. -/
theorem claim_C10_witness :
    (update sW10 10 2 2).2.price0CumulativeLast =
      sW10.price0CumulativeLast + (10 - sW10.blockTimestampLast) *
        (sW10.reserve_1 * UQ112 / sW10.reserve_0) :=
  (((claim_C10 sW10 10 2 2 (by decide) (by decide)).2.2 rfl).2.1
    (by decide)).1

/-- Claim C2 (code bug): the source's `swap` never sees the supplied
input amounts — lines 493-494 compute `balance_i = reserve_i -
amount_i_out` only, and the emitted event hard-codes the inputs to 0 —
so on the spec's own scenario (reserves 10000/20000, `amount_0_out =
1000`, inputs supplied off-stage) the call rejects with
`KValueDecreased` and commits nothing, instead of committing
`balance_i = reserve_i - out_i + in_i`. -/
theorem claim_C2_bug :
    (swap sK 0 1000 0).1 = Except.error PairError.KValueDecreased ∧
    (swap sK 0 1000 0).2.reserve_0 = 10000 ∧
    (swap sK 0 1000 0).2.reserve_1 = 20000 := by
  exact ⟨rfl, rfl, rfl⟩

/-- Claim C4 (code bug): `mint` can return an error with a partial
state mutation surviving.  On `sPartial` at time 100 the liquidity is
credited (lines 394-402) before `update` fails with `Overflow` in the
cumulative-price addition, so the error return carries `total_supply =
1000` (was 999) and a mutated balance map. -/
theorem claim_C4_bug :
    (mint sPartial 100 3).1 = Except.error PairError.Overflow ∧
    (mint sPartial 100 3).2.totalSupply = 1000 ∧
    sPartial.totalSupply = 999 ∧
    (mint sPartial 100 3).2.balances ≠ sPartial.balances := by
  refine ⟨rfl, rfl, rfl, by decide⟩

/-- Claim C5 (code bug): `swap`'s four `checked_mul(...).ok_or(...)?`
lines (497-503) propagate `Overflow` without the `self.unlock()` that
every other error path performs, so on `sBig` the call returns with the
guard still held and an immediately following `mint` is rejected with
`Locked`. -/
theorem claim_C5_bug :
    (swap sBig 0 1 0).1 = Except.error PairError.Overflow ∧
    (swap sBig 0 1 0).2.unlocked = false ∧
    (mint (swap sBig 0 1 0).2 0 9).1 = Except.error PairError.Locked := by
  exact ⟨rfl, rfl, rfl⟩

/-- Claim C7 (code bug): the deposited-amount subtraction of
`mint_internal` (line 368, `balance_0 - self.reserve_0`) is unchecked.
On `sWrap` (recorded `reserve_0 = 1001` against the placeholder balance
1000) it wraps to `2^128 - 1` and the call proceeds to a successful
mint of `2^64 - 101` shares instead of aborting with an error. -/
theorem claim_C7_bug :
    wrapSub128 1000 sWrap.reserve_0 = U128 - 1 ∧
    (mint sWrap 0 5).1 = Except.ok (U64 - 101) ∧
    (mint sWrap 0 5).2.totalSupply = U64 - 1 := by
  exact ⟨rfl, rfl, rfl⟩

/-- Claim C8 (code bug): `mint_internal` ignores the actually deposited
amounts — lines 365-366 fix the placeholder balances to 1000 — so the
spec's genesis scenario (deposit 10000/20000 into the empty pool)
yields `Ok 900` with reserves 1000/1000 and supply 1000, not 14042
shares with reserves 10000/20000 and supply 14142.  The
`MINIMUM_LIQUIDITY = 100` credit to the zero address does happen. -/
theorem claim_C8_bug :
    (mint sGenesis 0 5).1 = Except.ok 900 ∧
    (mint sGenesis 0 5).2.totalSupply = 1000 ∧
    (mint sGenesis 0 5).2.reserve_0 = 1000 ∧
    (mint sGenesis 0 5).2.reserve_1 = 1000 ∧
    getBal (mint sGenesis 0 5).2.balances 0 = MINIMUM_LIQUIDITY ∧
    (900 : Nat) ≠ 14042 ∧ (1000 : Nat) ≠ 14142 := by
  refine ⟨rfl, rfl, rfl, rfl, rfl, by decide, by decide⟩

/-- Claim C9 (code bug): `burn_internal` computes the released amounts
from the placeholder balances 1000 (lines 428-429, 438-443), not from
the reserves: on `sBurn` (reserves 500/500, supply 1000, 100 shares
held by the contract) it returns `Ok (100, 100)`, while the claimed
formula `shares * reserve_i / share_supply` gives 50. -/
theorem claim_C9_bug :
    (burn sBurn 0 7).1 = Except.ok (100, 100) ∧
    getBal sBurn.balances 7 * sBurn.reserve_0 / sBurn.totalSupply = 50 ∧
    (100 : Nat) ≠ 50 := by
  refine ⟨rfl, rfl, by decide⟩

end Pair
